/-
  Verification of the FreshLink marketplace server logic.

  Shallow embedding of the fee-calculation and checkout flow
  (server/routes.ts) and of the storage layer operations
  (server/storage.ts) over an explicit database state.

  Monetary values are embedded as exact rationals (ℚ): the source works on
  JavaScript numbers holding decimal currency amounts and the spec mandates
  exact decimal arithmetic, so rounding via toFixed(2) is embedded as
  rounding half-up to two decimal places.
-/
import Mathlib

namespace FreshLink

/-! Fee calculator (server/routes.ts, lines 20-60). -/

/-- Rounding as in the source expression `Number(x.toFixed(2))`: round to
2 decimal places, half away from zero (toward positive infinity), as
`toFixed` does on a decimal value. -/
def round2 (q : ℚ) : ℚ := ((q * 100 + 1/2).floor : ℚ) / 100

/-- Embedding of `const PLATFORM_FEE_RATE = 0.05` (5% platform
commission). -/
def PLATFORM_FEE_RATE : ℚ := 0.05

/-- Embedding of `const STRIPE_FEE_RATE = 0.029` (2.9% + $0.30). -/
def STRIPE_FEE_RATE : ℚ := 0.029

/-- Embedding of `const STRIPE_FIXED_FEE = 0.30`. -/
def STRIPE_FIXED_FEE : ℚ := 0.30

structure FeeBreakdown where
  platformFee : ℚ
  processingFee : ℚ
  total : ℚ
  deriving DecidableEq, Repr

/-- Embedding of `function calculateFees(subtotal, deliveryFee = 0)` from
routes.ts.  The raw fees are computed first; `total` is the sum of the
*unrounded* components, and each returned field is rounded
independently. -/
def calculateFees (subtotal : ℚ) (deliveryFee : ℚ) : FeeBreakdown :=
  let platformFee := subtotal * PLATFORM_FEE_RATE
  let processingFee := (subtotal + deliveryFee) * STRIPE_FEE_RATE + STRIPE_FIXED_FEE
  let total := subtotal + platformFee + processingFee + deliveryFee
  { platformFee := round2 platformFee
    processingFee := round2 processingFee
    total := round2 total }

/-- The delivery-fee table of `POST /api/orders/calculate-fees` and
`POST /api/orders` (routes.ts lines 325-331 and 383-389):
`deliveryFees[deliveryOption] || 0`.  Any string other than the three
table keys falls through to `0` (and the `0` of pickup is itself falsy,
so `|| 0` leaves it unchanged). -/
def deliveryFeeFor (opt : String) : ℚ :=
  if opt = "pickup" then 0
  else if opt = "farmers-market" then 1.99
  else if opt = "home" then 4.99
  else 0

/-- Response body of `POST /api/orders/calculate-fees`. -/
structure FeesResponse where
  subtotal : ℚ
  deliveryFee : ℚ
  platformFee : ℚ
  processingFee : ℚ
  total : ℚ
  deriving DecidableEq, Repr

/-- Handler of `POST /api/orders/calculate-fees` (routes.ts lines
321-342).  The body performs no validation of `subtotal`; the `catch`
branch is unreachable for numeric input, so the handler always answers
200 with a breakdown. -/
def calcFeesEndpoint (subtotal : ℚ) (deliveryOption : String) :
    Except String FeesResponse :=
  let deliveryFee := deliveryFeeFor deliveryOption
  let fees := calculateFees subtotal deliveryFee
  .ok { subtotal := subtotal
        deliveryFee := deliveryFee
        platformFee := fees.platformFee
        processingFee := fees.processingFee
        total := fees.total }

/-! Data model (shared/schema.ts). -/

/-- A `point` column value: PostGIS `ST_MakePoint(lng, lat)` / drizzle
point mode xy. -/
structure Loc where
  lat : ℚ
  lng : ℚ
  deriving DecidableEq, Repr

/-- A row of the `producers` table (the columns the server logic reads).
`location` is nullable in the schema. -/
structure ProducerRow where
  id : String
  userId : String
  businessName : String
  location : Option Loc
  deriving DecidableEq, Repr

/-- A row of the `products` table (the columns the server logic reads).
`description` is nullable; `tags` defaults to `[]` on creation.
`createdAt` is a timestamp, embedded as a natural number. -/
structure ProductRow where
  id : String
  producerId : String
  name : String
  description : Option String
  category : String
  price : ℚ
  unit : String
  stock : Int
  tags : List String
  seasonal : Bool
  available : Bool
  createdAt : Nat
  deriving DecidableEq, Repr

/-- A row of the `cart` table. -/
structure CartRow where
  id : String
  userId : String
  productId : String
  quantity : Nat
  createdAt : Nat
  deriving DecidableEq, Repr

/-- A row of the `orders` table (monetary columns as exact rationals;
the source stores their decimal string rendering). -/
structure OrderRow where
  id : String
  userId : String
  status : String
  subtotal : ℚ
  platformFee : ℚ
  processingFee : ℚ
  deliveryFee : ℚ
  total : ℚ
  deliveryOption : String
  deriving DecidableEq, Repr

/-- A row of the `order_items` table. -/
structure OrderItemRow where
  id : String
  orderId : String
  productId : String
  quantity : Nat
  unitPrice : ℚ
  totalPrice : ℚ
  deriving DecidableEq, Repr

/-- The database state visible to the server operations under scrutiny. -/
structure DB where
  products : List ProductRow
  producers : List ProducerRow
  cart : List CartRow
  orders : List OrderRow
  orderItems : List OrderItemRow
  deriving DecidableEq, Repr

/-! Geo search engine (server/storage.ts, `searchProducts`, lines
221-286).  The PostGIS geography distance (`ST_Distance(origin, location)
/ 1000`, kilometres) is kept abstract: the model is parameterised by a
distance function `dist originLat originLng loc`, and
`ST_DWithin(origin, loc, r*1000)` is `dist originLat originLng loc ≤ r`. -/

/-- JavaScript truthiness of an optional number: `undefined` and `0` are
falsy (`lat && lng && radiusKm` in the source). -/
def truthy : Option ℚ → Bool
  | none => false
  | some x => decide (x ≠ 0)

/-- Test that the first list is an initial segment of the second. -/
def startsWith : List Char → List Char → Bool
  | [], _ => true
  | _ :: _, [] => false
  | p :: ps, s :: ss => p = s && startsWith ps ss

/-- Substring containment on character lists. -/
def containsSub (pat : List Char) : List Char → Bool
  | [] => startsWith pat []
  | s :: ss => startsWith pat (s :: ss) || containsSub pat ss

/-- Embedding of `col ILIKE '%' || q || '%'`: case-insensitive substring
match. -/
def ilike (col : String) (q : String) : Bool :=
  containsSub q.toLower.data col.toLower.data

/-- A result row of `searchProducts`: product and producer data plus the
computed `distance` column (`null` when the producer has no location and
an origin was given). -/
structure SearchRow where
  product : ProductRow
  producer : ProducerRow
  distance : Option ℚ
  deriving DecidableEq, Repr

/-- The `WHERE` conditions of `searchProducts`, AND-combined exactly as
the source builds its `conditions` array. -/
def searchCond (dist : ℚ → ℚ → Loc → ℚ) (q : String)
    (lat lng radiusKm : Option ℚ) (category : Option String)
    (tags : Option (List String)) (r : SearchRow) : Bool :=
  r.product.available &&
  (if q = "" then true
   else ilike r.product.name q ||
     (match r.product.description with
      | some d => ilike d q
      | none => false)) &&
  (match category with
   | some c => if c = "" then true else r.product.category = c
   | none => true) &&
  (match tags with
   | some ts =>
       if ts.isEmpty then true
       else r.product.tags.any fun t => ts.contains t
   | none => true) &&
  (if truthy lat && truthy lng && truthy radiusKm then
     match r.producer.location with
     | some l => decide (dist (lat.getD 0) (lng.getD 0) l ≤ radiusKm.getD 0)
     | none => false
   else true)

/-- Ascending comparison on the `distance` column (`ORDER BY
ST_Distance`; SQL `NULL` sorts last in ascending order). -/
def distLe (a b : SearchRow) : Bool :=
  match a.distance, b.distance with
  | some x, some y => decide (x ≤ y)
  | some _, none => true
  | none, some _ => false
  | none, none => true

/-- Descending comparison on `createdAt` (`ORDER BY created_at DESC`). -/
def recencyLe (a b : SearchRow) : Bool :=
  decide (b.product.createdAt ≤ a.product.createdAt)

/-- Embedding of `DatabaseStorage.searchProducts`: inner join of
`products` with `producers`, a `distance` select column that is the real
distance only when both coordinates are truthy (and the SQL literal `0`
otherwise), the AND-combined filter conditions, and ordering by distance
when `lat && lng` is truthy, by recency descending otherwise. -/
def searchProducts (dist : ℚ → ℚ → Loc → ℚ) (db : DB) (q : String)
    (lat lng radiusKm : Option ℚ) (category : Option String)
    (tags : Option (List String)) : List SearchRow :=
  let latlngT := truthy lat && truthy lng
  let joined := db.products.flatMap fun p =>
    (db.producers.filter fun pr => pr.id = p.producerId).map fun pr =>
      { product := p
        producer := pr
        distance :=
          if latlngT then pr.location.map (dist (lat.getD 0) (lng.getD 0))
          else some 0 : SearchRow }
  let filtered := joined.filter (searchCond dist q lat lng radiusKm category tags)
  if latlngT then filtered.mergeSort distLe
  else filtered.mergeSort recencyLe

/-! Cart operations (server/storage.ts, lines 288-363). -/

/-- Embedding of `DatabaseStorage.getCartItems`: the cart rows of the
user inner-joined with `products` and `producers`; each result pairs the
cart row with its product. -/
def getCartItems (db : DB) (userId : String) : List (CartRow × ProductRow) :=
  (db.cart.filter fun c => c.userId = userId).flatMap fun c =>
    (db.products.filter fun p => p.id = c.productId).flatMap fun p =>
      (db.producers.filter fun pr => pr.id = p.producerId).map fun _ => (c, p)

/-- The body of `POST /api/cart` after zod parsing: userId, productId and
quantity of the item being added. -/
structure InsertCartItem where
  userId : String
  productId : String
  quantity : Nat
  deriving DecidableEq, Repr

/-- Embedding of `DatabaseStorage.addToCart`: if a row for the same
`(userId, productId)` already exists, bump the quantity of that row
(`UPDATE ... WHERE id = existing[0].id`); otherwise insert a fresh row.
`newId` stands for `randomUUID()` and `now` for `new Date()`.  Returns
the row the handler responds with together with the new cart table. -/
def addToCart (newId : String) (now : Nat) (item : InsertCartItem)
    (cartTbl : List CartRow) : CartRow × List CartRow :=
  match cartTbl.find? (fun c => c.userId = item.userId && c.productId = item.productId) with
  | some c0 =>
      ({ c0 with quantity := c0.quantity + item.quantity },
       cartTbl.map fun c =>
         if c.id = c0.id then { c with quantity := c0.quantity + item.quantity } else c)
  | none =>
      let row : CartRow :=
        { id := newId
          userId := item.userId
          productId := item.productId
          quantity := item.quantity
          createdAt := now }
      (row, cartTbl ++ [row])

/-- Embedding of `DatabaseStorage.clearCart`: delete every cart row of
the user. -/
def clearCart (db : DB) (userId : String) : DB :=
  { db with cart := db.cart.filter fun c => ¬(c.userId = userId) }

/-! Checkout (server/routes.ts, `POST /api/orders`, lines 365-424). -/

/-- One entry of the `orderItemsData` array the route builds from the
cart (routes.ts lines 408-413). -/
structure ItemSpec where
  productId : String
  quantity : Nat
  unitPrice : ℚ
  totalPrice : ℚ
  deriving DecidableEq, Repr

/-- Embedding of `DatabaseStorage.addOrderItems`: attach `orderId` and a
fresh `randomUUID()` to each item; the fresh ids are supplied by `ids`
(consumed in order, `""` if the supply runs short). -/
def mkOrderItems (orderId : String) : List String → List ItemSpec → List OrderItemRow
  | _, [] => []
  | ids, s :: ss =>
      { id := ids.headD ""
        orderId := orderId
        productId := s.productId
        quantity := s.quantity
        unitPrice := s.unitPrice
        totalPrice := s.totalPrice } :: mkOrderItems orderId ids.tail ss

/-- The three database writes of the checkout flow, in program order.
A request can fail at any of them (e.g. a transient database error). -/
inductive DbOp
  | opCreateOrder
  | opAddOrderItems
  | opClearCart
  deriving DecidableEq, Repr

/-- Outcome of `POST /api/orders`: the database state left behind and the
HTTP response (the created order on success, a 400 message on failure). -/
structure CheckoutResult where
  db : DB
  response : Except String OrderRow
  deriving Repr

/-- Handler of `POST /api/orders`: read the cart, compute totals via
`calculateFees`, insert the order, insert the order items, clear the
cart — as sequential, untransacted writes.  `failAt` injects a thrown
error at one of the three writes (the failing statement itself writes
nothing; everything already written stays).  `orderId` and `itemIds`
stand for the `randomUUID()` calls. -/
def checkout (failAt : Option DbOp) (orderId : String) (itemIds : List String)
    (deliveryOption : String) (userId : String) (db : DB) : CheckoutResult :=
  let cartItems := getCartItems db userId
  if cartItems.isEmpty then
    { db := db, response := .error "Cart is empty" }
  else
    let subtotal : ℚ :=
      cartItems.foldl (fun sum ci => sum + ci.2.price * (ci.1.quantity : ℚ)) 0
    let deliveryFee := deliveryFeeFor deliveryOption
    let fees := calculateFees subtotal deliveryFee
    if failAt = some .opCreateOrder then
      { db := db, response := .error "database error" }
    else
      let order : OrderRow :=
        { id := orderId
          userId := userId
          status := "pending"
          subtotal := subtotal
          platformFee := fees.platformFee
          processingFee := fees.processingFee
          deliveryFee := deliveryFee
          total := fees.total
          deliveryOption := deliveryOption }
      let db1 := { db with orders := db.orders ++ [order] }
      if failAt = some .opAddOrderItems then
        { db := db1, response := .error "database error" }
      else
        let orderItemsData := cartItems.map fun ci =>
          ({ productId := ci.2.id
             quantity := ci.1.quantity
             unitPrice := ci.2.price
             totalPrice := ci.2.price * ci.1.quantity } : ItemSpec)
        let db2 := { db1 with
          orderItems := db1.orderItems ++ mkOrderItems orderId itemIds orderItemsData }
        if failAt = some .opClearCart then
          { db := db2, response := .error "database error" }
        else
          { db := clearCart db2 userId, response := .ok order }

/-! Invariants and concrete scenario data. -/

/-- At most one cart row per `(userId, productId)` pair. -/
def atMostOnePerUserProduct (l : List CartRow) : Prop :=
  l.Pairwise fun a b => ¬(a.userId = b.userId ∧ a.productId = b.productId)

/-- Example producer used in the checkout scenarios. -/
def exProducer : ProducerRow :=
  { id := "pr1", userId := "u9", businessName := "Green Farm", location := none }

/-- Example product used in the checkout scenarios. -/
def exProduct : ProductRow :=
  { id := "p1", producerId := "pr1", name := "Eggs", description := none,
    category := "dairy", price := 6.50, unit := "dozen", stock := 10,
    tags := [], seasonal := false, available := true, createdAt := 100 }

/-- Example cart row: user u1 holds 2 times p1. -/
def exCartRow : CartRow :=
  { id := "c1", userId := "u1", productId := "p1", quantity := 2, createdAt := 101 }

/-- Example database: one producer, one product, the cart of u1 holds one
row. -/
def exDB : DB :=
  { products := [exProduct], producers := [exProducer], cart := [exCartRow],
    orders := [], orderItems := [] }

/-- Example producer close to the search origin used below. -/
def exProducerNear : ProducerRow :=
  { id := "prA", userId := "uA", businessName := "Near Farm",
    location := some ⟨1.5, 1.5⟩ }

/-- Example producer far from the search origin used below. -/
def exProducerFar : ProducerRow :=
  { id := "prB", userId := "uB", businessName := "Far Farm",
    location := some ⟨50, 50⟩ }

/-- Example product of the near producer (older: createdAt 10). -/
def exProductNear : ProductRow :=
  { id := "pA", producerId := "prA", name := "Kale", description := none,
    category := "vegetables", price := 3.25, unit := "bunch", stock := 5,
    tags := [], seasonal := false, available := true, createdAt := 10 }

/-- Example product of the far producer (newer: createdAt 20). -/
def exProductFar : ProductRow :=
  { id := "pB", producerId := "prB", name := "Honey", description := none,
    category := "preserves", price := 9.00, unit := "jar", stock := 3,
    tags := [], seasonal := false, available := true, createdAt := 20 }

/-- Example database for the search scenarios: two producers with
locations, two available products. -/
def exSearchDB : DB :=
  { products := [exProductNear, exProductFar],
    producers := [exProducerNear, exProducerFar],
    cart := [], orders := [], orderItems := [] }

/-- Stand-in distance function used to instantiate the abstract PostGIS
geography distance in the concrete scenarios (a taxicab metric on
coordinates). -/
def exDist (olat olng : ℚ) (l : Loc) : ℚ := |l.lat - olat| + |l.lng - olng|

/-- Database holding only the far-away producer and its product. -/
def exFarDB : DB :=
  { products := [exProductFar], producers := [exProducerFar], cart := [],
    orders := [], orderItems := [] }

/-- Result row of the C10 counterexample scenario for the near producer
(both coordinates truthy, so distances are computed). -/
def rowNearC10 : SearchRow :=
  { product := exProductNear
    producer := exProducerNear
    distance := some (exDist 1 1 ⟨1.5, 1.5⟩) }

/-- Result row of the C10 counterexample scenario for the far producer. -/
def rowFarC10 : SearchRow :=
  { product := exProductFar
    producer := exProducerFar
    distance := some (exDist 1 1 ⟨50, 50⟩) }

/-! Helper lemmas. -/

/-- Identity relating `round2` to the ambient `Int.floor`. -/
theorem round2_eq_floor (q : ℚ) : round2 q = (⌊q * 100 + 1/2⌋ : ℚ) / 100 := by
  unfold round2
  rw [Rat.floor_def, ← Rat.floor_def']

example : (calculateFees 100 0).platformFee = 5 := by
  simp only [calculateFees, PLATFORM_FEE_RATE, STRIPE_FEE_RATE, STRIPE_FIXED_FEE,
    round2_eq_floor]
  norm_num

example : (calculateFees 100 0).processingFee = 3.20 := by
  simp only [calculateFees, PLATFORM_FEE_RATE, STRIPE_FEE_RATE, STRIPE_FIXED_FEE,
    round2_eq_floor]
  norm_num

example : (calculateFees 100 0).total = 108.20 := by
  simp only [calculateFees, PLATFORM_FEE_RATE, STRIPE_FEE_RATE, STRIPE_FIXED_FEE,
    round2_eq_floor]
  norm_num

example : (calculateFees 0.52 0).total = 0.86 := by
  simp only [calculateFees, PLATFORM_FEE_RATE, STRIPE_FEE_RATE, STRIPE_FIXED_FEE,
    round2_eq_floor]
  norm_num

example : (calculateFees 0.52 0).platformFee = 0.03 := by
  simp only [calculateFees, PLATFORM_FEE_RATE, STRIPE_FEE_RATE, STRIPE_FIXED_FEE,
    round2_eq_floor]
  norm_num

example : (calculateFees 0.52 0).processingFee = 0.32 := by
  simp only [calculateFees, PLATFORM_FEE_RATE, STRIPE_FEE_RATE, STRIPE_FIXED_FEE,
    round2_eq_floor]
  norm_num

/-- Rounding to two decimals moves a value by at most half a cent. -/
theorem abs_round2_sub_le (z : ℚ) : |round2 z - z| ≤ 1/200 := by
  rw [round2_eq_floor]
  have h1 : (⌊z * 100 + 1/2⌋ : ℚ) ≤ z * 100 + 1/2 := Int.floor_le _
  have h2 : z * 100 + 1/2 < ⌊z * 100 + 1/2⌋ + 1 := Int.lt_floor_add_one _
  rw [abs_le]
  constructor <;> linarith

/-- Rounding a nonpositive value to two decimals stays nonpositive. -/
theorem round2_nonpos {z : ℚ} (h : z ≤ 0) : round2 z ≤ 0 := by
  rw [round2_eq_floor]
  have h1 : ⌊z * 100 + 1/2⌋ ≤ ⌊(1/2 : ℚ)⌋ := Int.floor_le_floor (by linarith)
  have h2 : ⌊(1/2 : ℚ)⌋ = 0 := by norm_num
  have h3 : ((⌊z * 100 + 1/2⌋ : ℤ) : ℚ) ≤ 0 := by
    rw [h2] at h1
    exact_mod_cast h1
  linarith

/-- Evaluation of the fee endpoint at subtotal 100, pickup. -/
theorem calcFeesEndpoint_100_pickup :
    calcFeesEndpoint 100 "pickup" =
      .ok { subtotal := 100, deliveryFee := 0, platformFee := 5,
            processingFee := 3.20, total := 108.20 } := by
  simp only [calcFeesEndpoint, deliveryFeeFor, calculateFees, round2_eq_floor,
    PLATFORM_FEE_RATE, STRIPE_FEE_RATE, STRIPE_FIXED_FEE, if_pos,
    Except.ok.injEq, FeesResponse.mk.injEq]
  norm_num

/-- Clearing the cart of a user empties the cart view of that user. -/
theorem getCartItems_clearCart (db : DB) (u : String) :
    getCartItems (clearCart db u) u = [] := by
  have hnil : (clearCart db u).cart.filter (fun c => c.userId = u) = [] := by
    simp only [clearCart, List.filter_filter]
    rw [List.filter_eq_nil_iff]
    intro c _
    simp
  simp only [getCartItems, hnil, List.flatMap_nil]

/-- Each row produced by `mkOrderItems` copies quantity and prices of its
item spec. -/
theorem mem_mkOrderItems {oid : String} :
    ∀ {ids : List String} {ss : List ItemSpec} {it : OrderItemRow},
      it ∈ mkOrderItems oid ids ss →
      ∃ s ∈ ss, it.quantity = s.quantity ∧ it.unitPrice = s.unitPrice ∧
        it.totalPrice = s.totalPrice
  | _, [], _, h => by simp [mkOrderItems] at h
  | ids, s :: ss, it, h => by
    rw [mkOrderItems] at h
    rcases List.mem_cons.mp h with h1 | h2
    · exact ⟨s, List.mem_cons_self s ss, by subst h1; exact ⟨rfl, rfl, rfl⟩⟩
    · obtain ⟨s', hs', hq⟩ := mem_mkOrderItems h2
      exact ⟨s', List.mem_cons_of_mem s hs', hq⟩

/-- Building order items preserves the list of total prices. -/
theorem mkOrderItems_map_totalPrice (oid : String) :
    ∀ (ids : List String) (ss : List ItemSpec),
      (mkOrderItems oid ids ss).map (·.totalPrice) = ss.map (·.totalPrice)
  | _, [] => rfl
  | ids, s :: ss => by
    rw [mkOrderItems, List.map_cons, List.map_cons,
      mkOrderItems_map_totalPrice oid ids.tail ss]

/-- Folding addition of `f x` from `a` is adding the mapped sum. -/
theorem foldl_add_map {α : Type} (f : α → ℚ) :
    ∀ (l : List α) (a : ℚ), l.foldl (fun s x => s + f x) a = a + (l.map f).sum
  | [], a => by simp
  | x :: xs, a => by
    rw [List.foldl_cons, foldl_add_map f xs (a + f x), List.map_cons, List.sum_cons]
    ring

/-- The quantity update of `addToCart` does not touch the keys of a
row. -/
theorem update_keeps_keys (c0 : CartRow) (q : Nat) (c : CartRow) :
    ((if c.id = c0.id then { c with quantity := q } else c).userId = c.userId) ∧
    ((if c.id = c0.id then { c with quantity := q } else c).productId = c.productId) := by
  by_cases h : c.id = c0.id <;> simp [h]

/-- Transitivity of `recencyLe`. -/
theorem recencyLe_trans (a b c : SearchRow) :
    recencyLe a b → recencyLe b c → recencyLe a c := by
  simp only [recencyLe, decide_eq_true_eq]
  omega

/-- Totality of `recencyLe`. -/
theorem recencyLe_total (a b : SearchRow) : recencyLe a b || recencyLe b a := by
  simp only [recencyLe, Bool.or_eq_true, decide_eq_true_eq]
  omega

/-- Transitivity of `distLe`. -/
theorem distLe_trans (a b c : SearchRow) :
    distLe a b → distLe b c → distLe a c := by
  simp only [distLe]
  cases a.distance <;> cases b.distance <;> cases c.distance <;> simp_all
  exact fun h1 h2 => le_trans h1 h2

/-- Totality of `distLe`. -/
theorem distLe_total (a b : SearchRow) : distLe a b || distLe b a := by
  simp only [distLe]
  cases a.distance <;> cases b.distance <;> simp_all
  exact le_total _ _

/-- An origin coordinate of `0` is falsy. -/
theorem truthy_some_zero : truthy (some 0) = false := by
  simp [truthy]

/-- When the radius guard is falsy, the filter conditions ignore the
radius entirely. -/
theorem searchCond_radius_falsy (dist : ℚ → ℚ → Loc → ℚ) (q : String)
    (lat lng radiusKm : Option ℚ) (category : Option String)
    (tags : Option (List String))
    (h : ¬(truthy lat = true ∧ truthy lng = true ∧ truthy radiusKm = true))
    (r : SearchRow) :
    searchCond dist q lat lng radiusKm category tags r =
      searchCond dist q lat lng none category tags r := by
  unfold searchCond
  have hguard : (truthy lat && truthy lng && truthy radiusKm) = false := by
    cases h1 : truthy lat <;> cases h2 : truthy lng <;>
      cases h3 : truthy radiusKm <;> simp_all
  have hguard2 : (truthy lat && truthy lng && truthy none) = false := by
    simp [truthy]
  rw [hguard, hguard2]
  simp

/-! Claims. -/

/-- Claim C1, corrected (see `claim_C1_counterexample`): the returned
`total` is the *unrounded* component sum `subtotal + platformFee +
processingFee + deliveryFee` rounded once to 2 decimal places; it is
*not* in general the sum of the independently rounded `platformFee` and
`processingFee`, though it differs from that sum by at most 1.5 cents. -/
theorem claim_C1_total_single_rounding (s df : ℚ) :
    (calculateFees s df).total =
      round2 (s + s * PLATFORM_FEE_RATE +
        ((s + df) * STRIPE_FEE_RATE + STRIPE_FIXED_FEE) + df) ∧
    |(calculateFees s df).total -
      (s + (calculateFees s df).platformFee +
        (calculateFees s df).processingFee + df)| ≤ 3/200 := by
  constructor
  · rfl
  · have h1 := abs_round2_sub_le (s * PLATFORM_FEE_RATE)
    have h2 := abs_round2_sub_le ((s + df) * STRIPE_FEE_RATE + STRIPE_FIXED_FEE)
    have h3 := abs_round2_sub_le
      (s + s * PLATFORM_FEE_RATE + ((s + df) * STRIPE_FEE_RATE + STRIPE_FIXED_FEE) + df)
    simp only [calculateFees]
    rw [abs_le] at h1 h2 h3 ⊢
    constructor <;> linarith

/-- Claim C1 counterexample: at subtotal 0.52 with a pickup delivery
(fee 0) the code answers `total = 0.86`, but the sum of the rounded
components is `0.52 + 0.03 + 0.32 = 0.87`, so `total` is not that sum. -/
theorem claim_C1_counterexample :
    (calculateFees 0.52 0).platformFee = 0.03 ∧
    (calculateFees 0.52 0).processingFee = 0.32 ∧
    (calculateFees 0.52 0).total = 0.86 ∧
    (calculateFees 0.52 0).total ≠
      0.52 + (calculateFees 0.52 0).platformFee +
        (calculateFees 0.52 0).processingFee + 0 := by
  simp only [calculateFees, PLATFORM_FEE_RATE, STRIPE_FEE_RATE, STRIPE_FIXED_FEE,
    round2_eq_floor]
  norm_num

/-- Claim C2, corrected: for subtotal 100 and pickup the endpoint answers
`platformFee = 5.00`, `processingFee = 3.20`, `deliveryFee = 0` and
`total = 108.20` (the 3.30 / 108.30 of the spec are arithmetic slips:
100 times 0.029 plus 0.30 is 3.20). -/
theorem claim_C2_values :
    calcFeesEndpoint 100 "pickup" =
      .ok { subtotal := 100, deliveryFee := 0, platformFee := 5,
            processingFee := 3.20, total := 108.20 } :=
  calcFeesEndpoint_100_pickup

/-- Claim C2 counterexample: the response at subtotal 100, pickup does
not carry `processingFee = 3.30` and `total = 108.30`. -/
theorem claim_C2_counterexample :
    ¬ (calcFeesEndpoint 100 "pickup" =
        .ok { subtotal := 100, deliveryFee := 0, platformFee := 5,
              processingFee := 3.30, total := 108.30 }) := by
  rw [calcFeesEndpoint_100_pickup]
  intro h
  have h2 : (3.20 : ℚ) = 3.30 := congrArg FeesResponse.processingFee (Except.ok.inj h)
  norm_num at h2

/-- Claim C3, code bug: checkout is *not* atomic.  When the order-items
insert throws after `createOrder` succeeded, the request fails (HTTP 400)
but the freshly created order row stays persisted while the cart was
never cleared: the failed request leaves a partially committed state
instead of rolling back as the claim requires. -/
theorem claim_C3_partial_commit :
    (checkout (some .opAddOrderItems) "o1" ["i1"] "pickup" "u1" exDB).response
        = .error "database error" ∧
    (checkout (some .opAddOrderItems) "o1" ["i1"] "pickup" "u1" exDB).db.cart
        = exDB.cart ∧
    (checkout (some .opAddOrderItems) "o1" ["i1"] "pickup" "u1" exDB).db.orderItems
        = exDB.orderItems ∧
    (checkout (some .opAddOrderItems) "o1" ["i1"] "pickup" "u1" exDB).db.orders.length
        = exDB.orders.length + 1 :=
  ⟨rfl, rfl, rfl, rfl⟩

/-- Claim C4, corrected: a negative subtotal is not rejected — the
endpoint performs no input validation and answers 200 with a breakdown
computed by the usual formulas (its platform fee is then nonpositive). -/
theorem claim_C4_no_validation (s : ℚ) (opt : String) (h : s < 0) :
    calcFeesEndpoint s opt =
      .ok { subtotal := s
            deliveryFee := deliveryFeeFor opt
            platformFee := round2 (s * PLATFORM_FEE_RATE)
            processingFee := round2 ((s + deliveryFeeFor opt) * STRIPE_FEE_RATE +
              STRIPE_FIXED_FEE)
            total := round2 (s + s * PLATFORM_FEE_RATE +
              ((s + deliveryFeeFor opt) * STRIPE_FEE_RATE + STRIPE_FIXED_FEE) +
              deliveryFeeFor opt) } ∧
    round2 (s * PLATFORM_FEE_RATE) ≤ 0 := by
  refine ⟨rfl, round2_nonpos ?_⟩
  have : (0 : ℚ) < PLATFORM_FEE_RATE := by norm_num [PLATFORM_FEE_RATE]
  nlinarith

/-- Claim C4 counterexample: at subtotal minus 10 (pickup) the endpoint
returns a fee breakdown (HTTP 200) instead of failing with a client
error. -/
theorem claim_C4_counterexample :
    calcFeesEndpoint (-10) "pickup" =
      .ok { subtotal := -10, deliveryFee := 0, platformFee := -0.50,
            processingFee := 0.01, total := -10.49 } := by
  simp only [calcFeesEndpoint, deliveryFeeFor, calculateFees, round2_eq_floor,
    PLATFORM_FEE_RATE, STRIPE_FEE_RATE, STRIPE_FIXED_FEE, if_pos,
    Except.ok.injEq, FeesResponse.mk.injEq]
  norm_num

/-- Claim C4 witness: the no-validation theorem applied at subtotal minus
10, delivery option home. -/
theorem claim_C4_witness :
    calcFeesEndpoint (-10) "home" =
      .ok { subtotal := -10
            deliveryFee := deliveryFeeFor "home"
            platformFee := round2 ((-10) * PLATFORM_FEE_RATE)
            processingFee := round2 (((-10) + deliveryFeeFor "home") * STRIPE_FEE_RATE +
              STRIPE_FIXED_FEE)
            total := round2 ((-10) + (-10) * PLATFORM_FEE_RATE +
              (((-10) + deliveryFeeFor "home") * STRIPE_FEE_RATE + STRIPE_FIXED_FEE) +
              deliveryFeeFor "home") } ∧
    round2 ((-10) * PLATFORM_FEE_RATE) ≤ 0 :=
  claim_C4_no_validation (-10) "home" (by norm_num)

/-- Claim C5, confirmed: an unrecognized delivery option does not error;
the endpoint behaves exactly as for pickup (delivery fee 0), and the
recognized options carry the fixed fees pickup = 0, home = 4.99,
farmers-market = 1.99. -/
theorem claim_C5_delivery_fallback (s : ℚ) (opt : String)
    (h : opt ≠ "pickup" ∧ opt ≠ "home" ∧ opt ≠ "farmers-market") :
    calcFeesEndpoint s opt = calcFeesEndpoint s "pickup" ∧
    deliveryFeeFor opt = 0 ∧
    deliveryFeeFor "pickup" = 0 ∧
    deliveryFeeFor "home" = 4.99 ∧
    deliveryFeeFor "farmers-market" = 1.99 := by
  obtain ⟨h1, h2, h3⟩ := h
  have hfee : deliveryFeeFor opt = 0 := by
    simp [deliveryFeeFor, h1, h2, h3]
  refine ⟨?_, hfee, by simp [deliveryFeeFor], by simp [deliveryFeeFor],
    by simp [deliveryFeeFor]⟩
  simp only [calcFeesEndpoint, hfee]
  simp [deliveryFeeFor]

/-- Claim C5 witness: the fallback theorem applied at subtotal 7 and the
unrecognized option drone. -/
theorem claim_C5_witness :
    calcFeesEndpoint 7 "drone" = calcFeesEndpoint 7 "pickup" ∧
    deliveryFeeFor "drone" = 0 ∧
    deliveryFeeFor "pickup" = 0 ∧
    deliveryFeeFor "home" = 4.99 ∧
    deliveryFeeFor "farmers-market" = 1.99 :=
  claim_C5_delivery_fallback 7 "drone" (by decide)

/-- Claim C6, corrected: whenever latitude, longitude and radius are all
*truthy* (present and nonzero), every producer in the search result has a
location within the radius.  (As literally stated — for every given
origin and radius — the claim fails: a zero coordinate silently disables
the filter, see the counterexample.) -/
theorem claim_C6_within_radius (dist : ℚ → ℚ → Loc → ℚ) (db : DB) (q : String)
    (lat lng radiusKm : Option ℚ) (category : Option String)
    (tags : Option (List String)) (hlat : truthy lat = true)
    (hlng : truthy lng = true) (hrad : truthy radiusKm = true) :
    ∀ r ∈ searchProducts dist db q lat lng radiusKm category tags,
      ∃ l, r.producer.location = some l ∧
        dist (lat.getD 0) (lng.getD 0) l ≤ radiusKm.getD 0 := by
  intro r hr
  simp only [searchProducts, hlat, hlng, Bool.true_and, if_true,
    List.mem_mergeSort, List.mem_filter] at hr
  obtain ⟨-, hcond⟩ := hr
  simp only [searchCond, hlat, hlng, hrad, Bool.true_and, Bool.and_true,
    if_true, Bool.and_eq_true] at hcond
  obtain ⟨-, hradius⟩ := hcond
  cases hloc : r.producer.location with
  | none => rw [hloc] at hradius; simp at hradius
  | some l =>
      rw [hloc] at hradius
      simp only [decide_eq_true_eq] at hradius
      exact ⟨l, rfl, hradius⟩

/-- Claim C6 counterexample: a search invoked with origin (0, 10) and
radius 5 km still returns the product of the producer at (50, 50) —
distance 90 by the model metric — because the zero latitude disables the
radius filter. -/
theorem claim_C6_counterexample :
    searchProducts exDist exFarDB "" (some 0) (some 10) (some 5) none none
      = [{ product := exProductFar, producer := exProducerFar,
           distance := some 0 }] ∧
    ¬ (exDist 0 10 ⟨50, 50⟩ ≤ 5) ∧
    exProducerFar.location = some ⟨50, 50⟩ := by
  refine ⟨?_, ?_, rfl⟩
  · simp [searchProducts, searchCond, truthy_some_zero, exFarDB,
      exProductFar, exProducerFar]
  · norm_num [exDist]

/-- Claim C6 witness: with origin (1, 1) — both coordinates truthy — and
radius 200, the product of the near producer is returned and the theorem
yields its within-radius location. -/
theorem claim_C6_witness :
    exDist 1 1 ⟨1.5, 1.5⟩ ≤ 200 := by
  have h := claim_C6_within_radius exDist exSearchDB "" (some 1) (some 1)
    (some 200) none none (by norm_num [truthy]) (by norm_num [truthy])
    (by norm_num [truthy])
  have hmem : ({ product := exProductNear
                 producer := exProducerNear
                 distance := some (exDist 1 1 ⟨1.5, 1.5⟩) } : SearchRow) ∈
      searchProducts exDist exSearchDB "" (some 1) (some 1) (some 200) none none := by
    have ht : truthy (some (1 : ℚ)) = true := by norm_num [truthy]
    simp only [searchProducts, ht, Bool.and_self, if_true, List.mem_mergeSort]
    rw [List.mem_filter]
    constructor
    · refine List.mem_flatMap.mpr ⟨exProductNear, by simp [exSearchDB], ?_⟩
      refine List.mem_map.mpr ⟨exProducerNear, ?_, ?_⟩
      · rw [List.mem_filter]
        exact ⟨by simp [exSearchDB], by simp [exProducerNear, exProductNear]⟩
      · norm_num [truthy, exProducerNear]
    · simp only [searchCond]
      norm_num [truthy, exProductNear, exProducerNear, exDist]
      rw [abs_of_nonneg (by norm_num : (0 : ℚ) ≤ 1/2)]
      norm_num
  obtain ⟨l, hl, hle⟩ := h _ hmem
  have : l = ⟨1.5, 1.5⟩ := by
    have : exProducerNear.location = some (⟨1.5, 1.5⟩ : Loc) := rfl
    rw [this] at hl
    exact (Option.some.inj hl).symm
  rw [this] at hle
  simpa using hle

/-- Claim C7, confirmed: a successful checkout from a non-empty cart
leaves the cart of the user empty, the total price of each created order
item is its unit price times its quantity, and the order subtotal is the
sum of the total prices of the created items. -/
theorem claim_C7_roundtrip (db : DB) (u dopt oid : String) (ids : List String)
    (h : getCartItems db u ≠ []) :
    getCartItems (checkout none oid ids dopt u db).db u = [] ∧
    (∀ it ∈ (checkout none oid ids dopt u db).db.orderItems.drop
        db.orderItems.length,
      it.totalPrice = it.unitPrice * (it.quantity : ℚ)) ∧
    (∃ o, (checkout none oid ids dopt u db).response = .ok o ∧
      o.subtotal = (((checkout none oid ids dopt u db).db.orderItems.drop
        db.orderItems.length).map (·.totalPrice)).sum) := by
  have hne : (getCartItems db u).isEmpty = false := by
    rw [List.isEmpty_eq_false]
    exact h
  rw [checkout]
  simp only [hne, Bool.false_eq_true, if_false, reduceCtorEq, clearCart]
  refine ⟨?_, ?_, ?_⟩
  · exact getCartItems_clearCart _ u
  · intro it hit
    rw [List.drop_left'] at hit
    · obtain ⟨s, hs, hq, hup, htp⟩ := mem_mkOrderItems hit
      obtain ⟨ci, _, rfl⟩ := List.mem_map.mp hs
      rw [htp, hup, hq]
    · rfl
  · refine ⟨_, rfl, ?_⟩
    rw [List.drop_left']
    · rw [mkOrderItems_map_totalPrice, List.map_map]
      rw [foldl_add_map (fun ci => ci.2.price * (ci.1.quantity : ℚ)) (getCartItems db u) 0]
      rw [zero_add]
      exact (congrArg List.sum (List.map_congr_left (fun ci _ => rfl))).symm
    · rfl

/-- Claim C7 witness: the round-trip theorem applied to the concrete
example database (the cart of u1 holds 2 times p1). -/
theorem claim_C7_witness :
    getCartItems (checkout none "o1" ["i1"] "pickup" "u1" exDB).db "u1" = [] :=
  (claim_C7_roundtrip exDB "u1" "pickup" "o1" ["i1"] (by decide)).1

/-- Claim C8, confirmed: searching with an empty query and no origin
returns rows for exactly the available products (every product has a
producer row by the foreign key of the schema), ordered by creation time
descending. -/
theorem claim_C8_empty_query (dist : ℚ → ℚ → Loc → ℚ) (db : DB)
    (hfk : ∀ p ∈ db.products, ∃ pr ∈ db.producers, pr.id = p.producerId) :
    (∀ r ∈ searchProducts dist db "" none none none none none,
        r.product ∈ db.products ∧ r.product.available = true) ∧
    (∀ p ∈ db.products, p.available = true →
        ∃ r ∈ searchProducts dist db "" none none none none none, r.product = p) ∧
    (searchProducts dist db "" none none none none none).Pairwise
      fun a b => b.product.createdAt ≤ a.product.createdAt := by
  have hsearch : searchProducts dist db "" none none none none none =
      ((db.products.flatMap fun p =>
        (db.producers.filter fun pr => pr.id = p.producerId).map fun pr =>
          ({ product := p, producer := pr, distance := some 0 } : SearchRow)).filter
        (searchCond dist "" none none none none none)).mergeSort recencyLe := by
    simp [searchProducts, truthy]
  have hcond : ∀ r : SearchRow,
      searchCond dist "" none none none none none r = r.product.available := by
    intro r
    simp [searchCond, truthy]
  refine ⟨?_, ?_, ?_⟩
  · intro r hr
    rw [hsearch, List.mem_mergeSort, List.mem_filter, hcond] at hr
    obtain ⟨hjoin, hav⟩ := hr
    obtain ⟨p, hp, hmap⟩ := List.mem_flatMap.mp hjoin
    obtain ⟨pr, _, hrow⟩ := List.mem_map.mp hmap
    constructor
    · rw [← hrow]
      exact hp
    · rw [← hrow] at hav ⊢
      exact hav
  · intro p hp hav
    obtain ⟨pr, hpr, hid⟩ := hfk p hp
    refine ⟨{ product := p, producer := pr, distance := some 0 }, ?_, rfl⟩
    rw [hsearch, List.mem_mergeSort, List.mem_filter, hcond]
    refine ⟨List.mem_flatMap.mpr ⟨p, hp, List.mem_map.mpr
      ⟨pr, List.mem_filter.mpr ⟨hpr, by simpa using hid⟩, rfl⟩⟩, hav⟩
  · rw [hsearch]
    have hs := List.sorted_mergeSort recencyLe_trans recencyLe_total
      ((db.products.flatMap fun p =>
        (db.producers.filter fun pr => pr.id = p.producerId).map fun pr =>
          ({ product := p, producer := pr, distance := some 0 } : SearchRow)).filter
        (searchCond dist "" none none none none none))
    exact hs.imp fun hab => by
      simpa [recencyLe, decide_eq_true_eq] using hab

/-- Claim C8 witness: the empty-query theorem applied to the concrete
two-product database. -/
theorem claim_C8_witness :
    (searchProducts (fun _ _ _ => 0) exSearchDB "" none none none none none).Pairwise
      fun a b => b.product.createdAt ≤ a.product.createdAt :=
  (claim_C8_empty_query (fun _ _ _ => 0) exSearchDB (by
    intro p hp
    simp only [exSearchDB, List.mem_cons, List.not_mem_nil, or_false] at hp
    rcases hp with rfl | rfl
    · exact ⟨exProducerNear, by simp [exSearchDB], rfl⟩
    · exact ⟨exProducerFar, by simp [exSearchDB], rfl⟩)).2.2

/-- Claim C9, confirmed: adding an item whose `(user, product)` pair is
already in the cart updates the quantity of that row in place (same
number of rows, the quantity of the matched row grows by the added
quantity, every other row untouched), and `addToCart` preserves the
at-most-one-row-per-pair invariant in both the update and the insert
branch. -/
theorem claim_C9_merge (newId : String) (now : Nat) (item : InsertCartItem)
    (cartTbl : List CartRow) :
    (∀ c0, cartTbl.find?
        (fun c => c.userId = item.userId && c.productId = item.productId) = some c0 →
      (addToCart newId now item cartTbl).2.length = cartTbl.length ∧
      (addToCart newId now item cartTbl).1 =
        { c0 with quantity := c0.quantity + item.quantity } ∧
      { c0 with quantity := c0.quantity + item.quantity } ∈
        (addToCart newId now item cartTbl).2 ∧
      (∀ c ∈ cartTbl, c.id ≠ c0.id → c ∈ (addToCart newId now item cartTbl).2)) ∧
    (atMostOnePerUserProduct cartTbl →
      atMostOnePerUserProduct (addToCart newId now item cartTbl).2) := by
  constructor
  · intro c0 hfind
    have heq : addToCart newId now item cartTbl =
        ({ c0 with quantity := c0.quantity + item.quantity },
         cartTbl.map fun c =>
           if c.id = c0.id then { c with quantity := c0.quantity + item.quantity }
           else c) := by
      rw [addToCart, hfind]
    rw [heq]
    refine ⟨List.length_map _ _, rfl, ?_, ?_⟩
    · have hmem : c0 ∈ cartTbl := List.mem_of_find?_eq_some hfind
      exact List.mem_map.mpr ⟨c0, hmem, by rw [if_pos rfl]⟩
    · intro c hc hid
      exact List.mem_map.mpr ⟨c, hc, if_neg hid⟩
  · intro hinv
    unfold addToCart
    cases hfind : cartTbl.find?
        (fun c => c.userId = item.userId && c.productId = item.productId) with
    | some c0 =>
        simp only
        exact List.Pairwise.map _
          (fun a b hab => by
            have ha := update_keeps_keys c0 (c0.quantity + item.quantity) a
            have hb := update_keeps_keys c0 (c0.quantity + item.quantity) b
            rw [ha.1, ha.2, hb.1, hb.2]
            exact hab) hinv
    | none =>
        simp only
        rw [atMostOnePerUserProduct, List.pairwise_append]
        refine ⟨hinv, List.pairwise_singleton _ _, ?_⟩
        intro a ha b hb
        have hnomatch := List.find?_eq_none.mp hfind a ha
        simp only [Bool.and_eq_true, decide_eq_true_eq, not_and] at hnomatch
        rcases List.mem_singleton.mp hb with rfl
        intro hcon
        exact hnomatch (by simpa using hcon.1) (by simpa using hcon.2)

/-- Claim C9 witness: merging 2 more units of p1 into a cart already
holding 1 times p1 for the same user keeps a single row and the
invariant. -/
theorem claim_C9_witness :
    (addToCart "c2" 5 ⟨"u1", "p1", 2⟩ [⟨"c1", "u1", "p1", 1, 0⟩]).2.length = 1 ∧
    atMostOnePerUserProduct (addToCart "c2" 5 ⟨"u1", "p1", 2⟩
      [⟨"c1", "u1", "p1", 1, 0⟩]).2 := by
  have h := claim_C9_merge "c2" 5 ⟨"u1", "p1", 2⟩ [⟨"c1", "u1", "p1", 1, 0⟩]
  exact ⟨(h.1 ⟨"c1", "u1", "p1", 1, 0⟩ (by decide)).1,
    h.2 (by rw [atMostOnePerUserProduct]; exact List.pairwise_singleton _ _)⟩

/-- Claim C10, corrected: the radius filter applies only when latitude,
longitude and radius are all truthy — otherwise the radius argument is
silently ignored (the search behaves as if no radius was given).  But the
ordering switches on `lat && lng` alone: with both coordinates truthy the
result is ordered by distance even when the radius is 0; recency ordering
and the constant reported distance 0 apply exactly when latitude or
longitude is absent or 0. -/
theorem claim_C10_truthiness (dist : ℚ → ℚ → Loc → ℚ) (db : DB) (q : String)
    (lat lng radiusKm : Option ℚ) (category : Option String)
    (tags : Option (List String))
    (h : ¬(truthy lat = true ∧ truthy lng = true ∧ truthy radiusKm = true)) :
    searchProducts dist db q lat lng radiusKm category tags
      = searchProducts dist db q lat lng none category tags ∧
    (truthy lat = true → truthy lng = true →
      (searchProducts dist db q lat lng radiusKm category tags).Pairwise
        fun a b => distLe a b = true) ∧
    (¬(truthy lat = true ∧ truthy lng = true) →
      ((searchProducts dist db q lat lng radiusKm category tags).Pairwise
        fun a b => b.product.createdAt ≤ a.product.createdAt) ∧
      ∀ r ∈ searchProducts dist db q lat lng radiusKm category tags,
        r.distance = some 0) := by
  refine ⟨?_, ?_, ?_⟩
  · simp only [searchProducts]
    rw [List.filter_congr fun r _ =>
      searchCond_radius_falsy dist q lat lng radiusKm category tags h r]
  · intro hlat hlng
    simp only [searchProducts, hlat, hlng, Bool.and_self, if_true]
    exact List.sorted_mergeSort distLe_trans distLe_total _
  · intro hll
    have hfalse : (truthy lat && truthy lng) = false := by
      cases h1 : truthy lat <;> cases h2 : truthy lng <;> simp_all
    constructor
    · simp only [searchProducts, hfalse, Bool.false_eq_true, if_false]
      have hs := List.sorted_mergeSort recencyLe_trans recencyLe_total
        ((db.products.flatMap fun p =>
          (db.producers.filter fun pr => pr.id = p.producerId).map fun pr =>
            ({ product := p, producer := pr, distance := some 0 } : SearchRow)).filter
          (searchCond dist q lat lng radiusKm category tags))
      exact hs.imp fun hab => by
        simpa [recencyLe, decide_eq_true_eq] using hab
    · intro r hr
      simp only [searchProducts, hfalse, Bool.false_eq_true, if_false,
        List.mem_mergeSort, List.mem_filter] at hr
      obtain ⟨hjoin, -⟩ := hr
      obtain ⟨p, -, hmap⟩ := List.mem_flatMap.mp hjoin
      obtain ⟨pr, -, hrow⟩ := List.mem_map.mp hmap
      rw [← hrow]

/-- Claim C10 counterexample: with latitude 1, longitude 1 and radius 0
the radius filter is skipped, yet the result is ordered by *distance*
(near first, though the far product is newer), not by creation recency as
the claim states. -/
theorem claim_C10_counterexample :
    searchProducts exDist exSearchDB "" (some 1) (some 1) (some 0) none none
      = [rowNearC10, rowFarC10] ∧
    ¬ (searchProducts exDist exSearchDB "" (some 1) (some 1) (some 0) none
        none).Pairwise fun a b => b.product.createdAt ≤ a.product.createdAt := by
  have ht1 : truthy (some (1 : ℚ)) = true := by norm_num [truthy]
  have ht0 : truthy (some (0 : ℚ)) = false := truthy_some_zero
  have hd : exDist 1 1 ⟨1.5, 1.5⟩ ≤ exDist 1 1 ⟨50, 50⟩ := by
    norm_num [exDist]
    rw [abs_of_nonneg (by norm_num : (0 : ℚ) ≤ 1/2)]
    norm_num
  have hsorted : List.Pairwise (fun a b => distLe a b = true)
      [rowNearC10, rowFarC10] := by
    refine List.pairwise_cons.mpr ⟨?_, List.pairwise_singleton _ _⟩
    intro b hb
    rw [List.mem_singleton.mp hb]
    simp only [distLe, rowNearC10, rowFarC10, decide_eq_true_eq]
    exact hd
  have heq : searchProducts exDist exSearchDB "" (some 1) (some 1) (some 0)
      none none = [rowNearC10, rowFarC10] := by
    have hstep : searchProducts exDist exSearchDB "" (some 1) (some 1) (some 0)
        none none = List.mergeSort [rowNearC10, rowFarC10] distLe := by
      simp [searchProducts, searchCond, ht1, ht0, exSearchDB, exProductNear,
        exProductFar, exProducerNear, exProducerFar, rowNearC10, rowFarC10,
        List.flatMap_cons, List.flatMap_nil, List.filter_cons, List.filter_nil]
    rw [hstep, List.mergeSort_of_sorted hsorted]
  refine ⟨heq, ?_⟩
  rw [heq]
  intro hp
  have hle := (List.pairwise_cons.mp hp).1 rowFarC10 (List.mem_singleton.mpr rfl)
  have : (20 : Nat) ≤ 10 := hle
  omega

/-- Claim C10 witness: the truthiness theorem applied with a zero
latitude — the radius 5 is silently ignored, so the search equals the
radius-less search. -/
theorem claim_C10_witness :
    searchProducts exDist exSearchDB "" (some 0) (some 10) (some 5) none none
      = searchProducts exDist exSearchDB "" (some 0) (some 10) none none none :=
  (claim_C10_truthiness exDist exSearchDB "" (some 0) (some 10) (some 5) none
    none (by simp [truthy_some_zero])).1

end FreshLink
